import Mathlib

/-!
Verification development for `unsupervised_aae_deterministic_w_discriminator.py`,
a single training script for a deterministic adversarial autoencoder.

The script's numeric computations (losses, metrics) are embedded over the real
numbers; tensors of logits or pixels are embedded as lists of reals (Keras
reduces the relevant losses and metrics by a global mean over all elements, so
a flat list carries exactly the information those reductions use).  The data
pipeline, the training-step control flow, the parameter-update frame, and the
visualization trigger are embedded as executable functions on naturals, lists
and strings.
-/

/- ------------------------------------------------------------------ -/
/- Script constants (source lines 56-57, 135, 169, 262).              -/

/-- Source line 56: `batch_size = 256`. -/
def batch_size : ℕ := 256

/-- Source line 57: `train_buf = 60000` (the MNIST training-set size, also
used as the shuffle buffer). -/
def train_buf : ℕ := 60000

/-- Source line 135: `z_dim = 2`. -/
def z_dim : ℕ := 2

/-- Source line 262: `n_epochs = 200`. -/
def n_epochs : ℕ := 200

/- ------------------------------------------------------------------ -/
/- Data provider (source lines 59-61).                                -/

/-- Embedding of `tf.data.Dataset.batch(b)` applied to a dataset of `n`
elements (source line 61): without `drop_remainder` the dataset is cut into
`ceil(n / b)` consecutive chunks, all of size `b` except a possibly smaller
final chunk.  Only the chunk sizes matter to the claims, so the embedding
returns the list of batch sizes.  The preceding `shuffle` (line 60) permutes
the 60000 elements and therefore does not affect these sizes. -/
def batchSizes (n b : ℕ) : List ℕ :=
  (List.range ((n + b - 1) / b)).map (fun i => min b (n - b * i))

/-- The batch sizes the iterator yields in a given epoch (source line 274
iterates `train_dataset` afresh each epoch; reshuffling changes the order of
elements, never the chunk sizes). -/
def epoch_batch_sizes (_epoch : ℕ) : List ℕ :=
  batchSizes train_buf batch_size

/- ------------------------------------------------------------------ -/
/- Loss functions (source lines 144-164).                             -/

noncomputable section

/-- The logistic sigmoid, the final activation of the decoder (source line
100) and the function `BinaryCrossentropy(from_logits=True)` applies
internally to raw logits. -/
def sigmoid (x : ℝ) : ℝ := 1 / (1 + Real.exp (-x))

/-- Pointwise binary cross-entropy on a raw logit `l` with target `y`, in the
mathematically exact form used by `tf.nn.sigmoid_cross_entropy_with_logits`:
`(1 - y) * l + log (1 + exp (-l))`. -/
def bce_logit (y l : ℝ) : ℝ := (1 - y) * l + Real.log (1 + Real.exp (-l))

/-- Source line 148: `cross_entropy = tf.keras.losses.BinaryCrossentropy(from_logits=True)`;
the mean over all elements of the pointwise logit cross-entropy. -/
def cross_entropy (y_true y_pred : List ℝ) : ℝ :=
  (List.zipWith bce_logit y_true y_pred).sum / y_pred.length

/-- Embedding of `tf.ones_like`. -/
def onesLike (xs : List ℝ) : List ℝ := xs.map fun _ => 1

/-- Embedding of `tf.zeros_like`. -/
def zerosLike (xs : List ℝ) : List ℝ := xs.map fun _ => 0

/-- Source line 149: `mse = tf.keras.losses.MeanSquaredError()`; the mean over
all elements of the squared pointwise difference. -/
def mse (a b : List ℝ) : ℝ :=
  (List.zipWith (fun x y => (x - y) ^ 2) a b).sum / a.length

/-- Source lines 153-154. -/
def autoencoder_loss (inputs reconstruction : List ℝ) (loss_weight : ℝ) : ℝ :=
  loss_weight * mse inputs reconstruction

/-- Source lines 157-160: `loss_real` is the cross-entropy of the real logits
against an all-ones target, `loss_fake` against an all-zeros target, and the
result is `loss_weight * (loss_fake + loss_real)`. -/
def discriminator_loss (real_output fake_output : List ℝ) (loss_weight : ℝ) : ℝ :=
  let loss_real := cross_entropy (onesLike real_output) real_output
  let loss_fake := cross_entropy (zerosLike fake_output) fake_output
  loss_weight * (loss_fake + loss_real)

/-- Source lines 163-164. -/
def generator_loss (fake_output : List ℝ) (loss_weight : ℝ) : ℝ :=
  loss_weight * cross_entropy (onesLike fake_output) fake_output

/- Spec-side reformulation for claim C7: binary cross-entropy written with an
explicit internal sigmoid, `-(y log σ(l) + (1-y) log (1-σ(l)))`, averaged. -/

/-- Pointwise binary cross-entropy phrased via the sigmoid, following the
spec's words ("cross-entropy must apply sigmoid internally"). -/
def bce_sigmoid_pointwise (y l : ℝ) : ℝ :=
  -(y * Real.log (sigmoid l) + (1 - y) * Real.log (1 - sigmoid l))

/-- Mean sigmoid-form binary cross-entropy of a list of logits against a
constant target. -/
def bce_sigmoid (y : ℝ) (ls : List ℝ) : ℝ :=
  (ls.map (bce_sigmoid_pointwise y)).sum / ls.length

/-- The spec's description of `discriminator_loss`: weight times the sum of
the binary cross-entropy of the real logits against target 1 and of the fake
logits against target 0, sigmoid applied internally. -/
def discriminator_loss_spec (real_output fake_output : List ℝ) (w : ℝ) : ℝ :=
  w * (bce_sigmoid 1 real_output + bce_sigmoid 0 fake_output)

end

/- ------------------------------------------------------------------ -/
/- Helper lemmas on the loss embeddings.                              -/

theorem zipWith_self {α β : Type} (f : α → α → β) (l : List α) :
    List.zipWith f l l = l.map (fun a => f a a) := by
  induction l with
  | nil => rfl
  | cons a t ih => simp [ih]

theorem cross_entropy_onesLike (ls : List ℝ) :
    cross_entropy (onesLike ls) ls
      = (ls.map (fun l => Real.log (1 + Real.exp (-l)))).sum / ls.length := by
  unfold cross_entropy onesLike
  rw [List.zipWith_map_left, zipWith_self]
  simp [bce_logit]

theorem cross_entropy_zerosLike (ls : List ℝ) :
    cross_entropy (zerosLike ls) ls
      = (ls.map (fun l => l + Real.log (1 + Real.exp (-l)))).sum / ls.length := by
  unfold cross_entropy zerosLike
  rw [List.zipWith_map_left, zipWith_self]
  simp [bce_logit]

theorem one_add_exp_pos (l : ℝ) : (0 : ℝ) < 1 + Real.exp (-l) := by
  have := Real.exp_pos (-l)
  linarith

theorem bce_logit_one_eq (l : ℝ) : bce_logit 1 l = bce_sigmoid_pointwise 1 l := by
  unfold bce_logit bce_sigmoid_pointwise sigmoid
  have h := one_add_exp_pos l
  rw [one_div, Real.log_inv]
  ring

theorem one_sub_sigmoid (l : ℝ) :
    1 - sigmoid l = Real.exp (-l) / (1 + Real.exp (-l)) := by
  unfold sigmoid
  have h := one_add_exp_pos l
  field_simp

theorem bce_logit_zero_eq (l : ℝ) : bce_logit 0 l = bce_sigmoid_pointwise 0 l := by
  unfold bce_logit bce_sigmoid_pointwise
  rw [one_sub_sigmoid, Real.log_div (Real.exp_ne_zero _) (ne_of_gt (one_add_exp_pos l)),
    Real.log_exp]
  ring

/- ------------------------------------------------------------------ -/
/- Claim theorems (first group: C5, C7, C8).                          -/

set_option maxRecDepth 20000 in
/-- Claim C5: for a dataset of size 60000 and batch size 256, the data
provider yields a fixed, well-defined number of batches per epoch — here 235
batches, namely 234 full batches of 256 followed by one final partial batch
of 96 — and the behavior is identical in every epoch. -/
theorem C5_batch_partitioning (e : ℕ) :
    (epoch_batch_sizes e).length = 235 ∧
    epoch_batch_sizes e = List.replicate 234 256 ++ [96] ∧
    (∀ e' : ℕ, epoch_batch_sizes e' = epoch_batch_sizes e) := by
  refine ⟨?_, ?_, fun e' => rfl⟩
  · show (batchSizes train_buf batch_size).length = 235
    decide
  · show batchSizes train_buf batch_size = List.replicate 234 256 ++ [96]
    decide

/-- Claim C7: for all real-logit and fake-logit lists and every weight `w`,
`discriminator_loss real fake w` equals `w` times the sum of the binary
cross-entropy of the real logits against target 1 and of the fake logits
against target 0, with the cross-entropy applying the sigmoid internally
(operating on raw logits). -/
theorem C7_discriminator_loss_bce (real_output fake_output : List ℝ) (w : ℝ) :
    discriminator_loss real_output fake_output w
      = discriminator_loss_spec real_output fake_output w := by
  unfold discriminator_loss discriminator_loss_spec bce_sigmoid cross_entropy
  unfold onesLike zerosLike
  rw [List.zipWith_map_left, List.zipWith_map_left, zipWith_self, zipWith_self]
  simp only [bce_logit_one_eq, bce_logit_zero_eq]
  ring

/-- Claim C8: for every batch `x` and every weight `w`, the reconstruction
loss of `x` against itself is zero: `autoencoder_loss x x w = 0`. -/
theorem C8_autoencoder_loss_self (x : List ℝ) (w : ℝ) :
    autoencoder_loss x x w = 0 := by
  unfold autoencoder_loss mse
  rw [zipWith_self]
  simp

/- ------------------------------------------------------------------ -/
/- Generator loss analysis (claim C9).                                -/

theorem generator_loss_eq (ls : List ℝ) (w : ℝ) :
    generator_loss ls w
      = w * ((ls.map (fun l => Real.log (1 + Real.exp (-l)))).sum / ls.length) := by
  unfold generator_loss
  rw [cross_entropy_onesLike]

theorem generator_loss_single (l w : ℝ) :
    generator_loss [l] w = w * Real.log (1 + Real.exp (-l)) := by
  rw [generator_loss_eq]
  simp

theorem log_one_add_exp_strict_anti {a b : ℝ} (h : a < b) :
    Real.log (1 + Real.exp (-b)) < Real.log (1 + Real.exp (-a)) := by
  apply Real.log_lt_log (one_add_exp_pos b)
  have : Real.exp (-b) < Real.exp (-a) := Real.exp_lt_exp.mpr (by linarith)
  linarith

/-- Claim C9: for every positive weight, `generator_loss` is strictly
monotonically decreasing in the fake logits — raising any one fake logit
strictly decreases the loss — and, for a single logit, the loss is always
positive, tends to its infimum 0 as the logit tends to `+∞`, and grows
without bound as the logit tends to `-∞`. -/
theorem C9_generator_loss_monotone (w : ℝ) (hw : 0 < w) :
    (∀ (pre post : List ℝ) (a b : ℝ), a < b →
        generator_loss (pre ++ b :: post) w < generator_loss (pre ++ a :: post) w) ∧
    (∀ l : ℝ, 0 < generator_loss [l] w) ∧
    Filter.Tendsto (fun l => generator_loss [l] w) Filter.atTop (nhds 0) ∧
    Filter.Tendsto (fun l => generator_loss [l] w) Filter.atBot Filter.atTop := by
  refine ⟨?_, ?_, ?_, ?_⟩
  · intro pre post a b hab
    rw [generator_loss_eq, generator_loss_eq]
    have hlen : ((pre ++ b :: post).length : ℝ) = ((pre ++ a :: post).length : ℝ) := by
      simp
    have hposn : 0 < (pre ++ a :: post).length := by
      simp only [List.length_append, List.length_cons]
      omega
    have hpos : (0 : ℝ) < ((pre ++ a :: post).length : ℝ) := by exact_mod_cast hposn
    have hsum : ((pre ++ b :: post).map (fun l => Real.log (1 + Real.exp (-l)))).sum
        < ((pre ++ a :: post).map (fun l => Real.log (1 + Real.exp (-l)))).sum := by
      simp only [List.map_append, List.sum_append, List.map_cons, List.sum_cons]
      have := log_one_add_exp_strict_anti hab
      linarith
    rw [hlen]
    exact mul_lt_mul_of_pos_left ((div_lt_div_iff_of_pos_right hpos).mpr hsum) hw
  · intro l
    rw [generator_loss_single]
    have h1 : 0 < Real.log (1 + Real.exp (-l)) :=
      Real.log_pos (by have := Real.exp_pos (-l); linarith)
    exact mul_pos hw h1
  · simp only [generator_loss_single]
    have h2 : Filter.Tendsto (fun l : ℝ => Real.exp (-l)) Filter.atTop (nhds 0) :=
      Real.tendsto_exp_atBot.comp Filter.tendsto_neg_atTop_atBot
    have h3 : Filter.Tendsto (fun l : ℝ => 1 + Real.exp (-l)) Filter.atTop (nhds 1) := by
      simpa using tendsto_const_nhds.add h2
    have h4 : Filter.Tendsto (fun l : ℝ => Real.log (1 + Real.exp (-l)))
        Filter.atTop (nhds 0) := by
      have := (Real.continuousAt_log (by norm_num : (1 : ℝ) ≠ 0)).tendsto.comp h3
      simpa [Function.comp, Real.log_one] using this
    have h5 := h4.const_mul w
    simpa using h5
  · simp only [generator_loss_single]
    have h1 : Filter.Tendsto (fun l : ℝ => Real.exp (-l)) Filter.atBot Filter.atTop :=
      Real.tendsto_exp_atTop.comp Filter.tendsto_neg_atBot_atTop
    have h2 : Filter.Tendsto (fun l : ℝ => 1 + Real.exp (-l)) Filter.atBot Filter.atTop :=
      Filter.tendsto_atTop_add_const_left _ 1 h1
    have h3 := Real.tendsto_log_atTop.comp h2
    exact Filter.Tendsto.const_mul_atTop hw (by simpa [Function.comp] using h3)

/-- Witness for C9: at weight 1 (which is positive), raising the second fake
logit of the batch `[0, 2]` to 3 strictly decreases the generator loss. -/
theorem C9_generator_loss_monotone_witness :
    (0 : ℝ) < 1 ∧ generator_loss [(0 : ℝ), 3] 1 < generator_loss [(0 : ℝ), 2] 1 := by
  refine ⟨one_pos, ?_⟩
  have h := (C9_generator_loss_monotone 1 one_pos).1 [(0 : ℝ)] [] 2 3 (by norm_num)
  simpa using h

/- ------------------------------------------------------------------ -/
/- Decoder output range (claim C10).                                  -/

noncomputable section

/-- One output pixel of a convolutional layer before its activation: the bias
plus the dot product of the kernel weights with the corresponding input
patch. -/
def convPixel (bias : ℝ) (weights patch : List ℝ) : ℝ :=
  bias + (List.zipWith (fun wt x => wt * x) weights patch).sum

/-- Final layer of `make_decoder_model` (source line 100):
`Conv2D(filters=1, kernel_size=3, activation='sigmoid', padding='same')`.
Each output pixel is the sigmoid of an affine combination of the previous
layer's activations; `patches` is the im2col view of the upstream feature
map.  The embedding quantifies over the patches and over the trained bias and
kernel weights, which subsumes every value the preceding relu-conv and
upsampling stack (source lines 89-98) can produce. -/
def decoder_final_layer (bias : ℝ) (weights : List ℝ) (patches : List (List ℝ)) : List ℝ :=
  patches.map (fun patch => sigmoid (convPixel bias weights patch))

end

theorem sigmoid_pos (x : ℝ) : 0 < sigmoid x :=
  div_pos one_pos (one_add_exp_pos x)

theorem sigmoid_lt_one (x : ℝ) : sigmoid x < 1 := by
  unfold sigmoid
  rw [div_lt_one (one_add_exp_pos x)]
  have := Real.exp_pos (-x)
  linarith

/-- Claim C10: every pixel the decoder's final sigmoid-activated layer
produces lies strictly inside the interval (0, 1), for every latent input
(every upstream activation pattern) and every setting of the layer's
weights. -/
theorem C10_decoder_output_range (bias : ℝ) (weights : List ℝ)
    (patches : List (List ℝ)) (p : ℝ)
    (hp : p ∈ decoder_final_layer bias weights patches) : 0 < p ∧ p < 1 := by
  unfold decoder_final_layer at hp
  rcases List.mem_map.mp hp with ⟨patch, _, rfl⟩
  exact ⟨sigmoid_pos _, sigmoid_lt_one _⟩

/-- Witness for C10: a concrete decoder evaluation (zero bias, empty kernel,
one empty patch) produces the pixel `sigmoid 0`, which the theorem places in
(0, 1). -/
theorem C10_decoder_output_range_witness :
    sigmoid 0 ∈ decoder_final_layer 0 [] [[]] ∧ 0 < sigmoid 0 ∧ sigmoid 0 < 1 := by
  have hmem : sigmoid 0 ∈ decoder_final_layer 0 [] [[]] := by
    simp [decoder_final_layer, convPixel]
  exact ⟨hmem, C10_decoder_output_range 0 [] [[]] (sigmoid 0) hmem⟩

/- ------------------------------------------------------------------ -/
/- Visualization trigger and artifact paths (claim C6).               -/

/-- Source line 31: the experiment directory under `outputs/`. -/
def experiment_dir : String := "outputs/unsupervised_aae_deterministic_w_discriminator"

/-- Source lines 34-35. -/
def latent_space_dir : String := experiment_dir ++ "/latent_space"

/-- Source lines 37-38. -/
def reconstruction_dir : String := experiment_dir ++ "/reconstruction"

/-- Source lines 40-41. -/
def sampling_dir : String := experiment_dir ++ "/sampling"

/-- The file name `'epoch_%d.png' % epoch` (source lines 321, 344, 365). -/
def epoch_png (k : ℕ) : String := "epoch_" ++ toString k ++ ".png"

/-- The three files one visualization pass writes for epoch `k`: the
latent-space scatter (line 321), the reconstruction grid (line 344) and the
latent-grid sampling (line 365). -/
def viz_files (k : ℕ) : List String :=
  [latent_space_dir ++ "/" ++ epoch_png k,
   reconstruction_dir ++ "/" ++ epoch_png k,
   sampling_dir ++ "/" ++ epoch_png k]

/-- The epochs on which the training loop renders visualizations: the loop
runs `for epoch in range(max_epochs)` (source line 263) and renders iff
`epoch % 10 == 0` (source line 301). -/
def viz_epochs (max_epochs : ℕ) : List ℕ :=
  (List.range max_epochs).filter (fun k => k % 10 == 0)

/-- Claim C6: visualization artifacts are written exactly on the epochs `k`
with `k % 10 = 0` (including epoch 0) and on no others; for `max_epochs = 25`
those are exactly 0, 10 and 20; and each pass writes the three files
`outputs/<experiment-name>/{latent_space,reconstruction,sampling}/epoch_<k>.png`
keyed by the zero-based epoch index (shown here for `k = 10`). -/
theorem C6_visualization_trigger (m k : ℕ) :
    (k ∈ viz_epochs m ↔ k < m ∧ k % 10 = 0) ∧
    viz_epochs 25 = [0, 10, 20] ∧
    viz_files 10 =
      ["outputs/unsupervised_aae_deterministic_w_discriminator/latent_space/epoch_10.png",
       "outputs/unsupervised_aae_deterministic_w_discriminator/reconstruction/epoch_10.png",
       "outputs/unsupervised_aae_deterministic_w_discriminator/sampling/epoch_10.png"] := by
  refine ⟨?_, by decide, by decide⟩
  simp [viz_epochs, List.mem_filter, List.mem_range]

/- ------------------------------------------------------------------ -/
/- Shape of the latent-discriminator's Gaussian draw (claim C3).      -/

/-- Source line 196:
`tf.random.normal([batch_size, 1, 1, z_dim], mean=0.0, stddev=1.0)` — the
shape of the fresh standard-Gaussian draw in the latent-discriminator
sub-step.  The shape is built from the module-level constants `batch_size`
and `z_dim`, not from the size of the batch currently being processed. -/
def real_distribution_shape : List ℕ := [batch_size, 1, 1, z_dim]

set_option maxRecDepth 20000 in
/-- Counterexample to claim C3 as stated: the epoch's final partial batch has
96 images, but the Gaussian draw's first dimension is the constant 256, not
96. -/
theorem C3_counterexample :
    96 ∈ epoch_batch_sizes 0 ∧ real_distribution_shape.head? ≠ some 96 := by
  constructor
  · show 96 ∈ batchSizes train_buf batch_size
    decide
  · decide

set_option maxRecDepth 20000 in
/-- Claim C3 (amended): for every batch handed to `train_step`, the
latent-discriminator sub-step draws a fresh standard-Gaussian sample whose
first dimension is the fixed configured `batch_size` 256 — which equals the
number of images in each of the 234 full batches but not in the final
partial batch of 96 — and whose latent (last) dimensionality equals the
configured z dimension 2. -/
theorem C3_real_distribution_shape (e : ℕ) :
    real_distribution_shape.head? = some 256 ∧
    real_distribution_shape.getLast? = some 2 ∧
    epoch_batch_sizes e = List.replicate 234 256 ++ [96] := by
  refine ⟨by decide, by decide, ?_⟩
  show batchSizes train_buf batch_size = List.replicate 234 256 ++ [96]
  decide

/- ------------------------------------------------------------------ -/
/- train_step local bindings and return value (claim C1).             -/

/-- The local variables of `train_step` (source lines 179-257) that feed its
`return` statement, each `Option`-valued: `none` means the name has never
been bound, so that reading it raises a Python `NameError`. -/
structure TrainStepEnv where
  ae_loss : Option ℝ
  dc_z_loss : Option ℝ
  dc_z_acc : Option ℝ
  gen_z_loss : Option ℝ
  dc_x_loss : Option ℝ
  dc_x_acc : Option ℝ
  gen_x_loss : Option ℝ

/-- No local is bound when the body starts executing. -/
def emptyEnv : TrainStepEnv := ⟨none, none, none, none, none, none, none⟩

/-- Assignment statement `ae_loss = ...` (source line 187). -/
def assign_ae_loss (v : ℝ) (e : TrainStepEnv) : TrainStepEnv := { e with ae_loss := some v }

/-- Assignment statement `dc_z_loss = ...` (source line 203). -/
def assign_dc_z_loss (v : ℝ) (e : TrainStepEnv) : TrainStepEnv := { e with dc_z_loss := some v }

/-- Assignment statement `dc_z_acc = ...` (source lines 206 and 237). -/
def assign_dc_z_acc (v : ℝ) (e : TrainStepEnv) : TrainStepEnv := { e with dc_z_acc := some v }

/-- Assignment statement `gen_z_loss = ...` (source line 219). -/
def assign_gen_z_loss (v : ℝ) (e : TrainStepEnv) : TrainStepEnv := { e with gen_z_loss := some v }

/-- Assignment statement `dc_x_loss = ...` (source line 234). -/
def assign_dc_x_loss (v : ℝ) (e : TrainStepEnv) : TrainStepEnv := { e with dc_x_loss := some v }

/-- Assignment statement `gen_x_loss = ...` (source line 252). -/
def assign_gen_x_loss (v : ℝ) (e : TrainStepEnv) : TrainStepEnv := { e with gen_x_loss := some v }

/-- The sequence of scalar-binding assignments the body of `train_step`
executes, in source order, given the computed values `ae, dcz, accZ, genz,
dcx, accX, genx` of the five loss expressions and the two accuracy
expressions.  Line 187 binds `ae_loss`; line 203 binds `dc_z_loss`; line 206
binds `dc_z_acc` (the latent-discriminator accuracy `accZ`); line 219 binds
`gen_z_loss`; line 234 binds `dc_x_loss`; line 237 — although its value is
the accuracy `accX` computed in the image-discriminator sub-step and its
comment reads `Discriminator X Acc` — binds `dc_z_acc` again, overwriting
the latent accuracy; line 252 binds `gen_x_loss`.  No statement in the body
ever binds `dc_x_acc`. -/
def train_step_env (ae dcz accZ genz dcx accX genx : ℝ) : TrainStepEnv :=
  assign_gen_x_loss genx
    (assign_dc_z_acc accX
      (assign_dc_x_loss dcx
        (assign_gen_z_loss genz
          (assign_dc_z_acc accZ
            (assign_dc_z_loss dcz
              (assign_ae_loss ae emptyEnv))))))

/-- Source line 257: `return ae_loss, dc_z_loss, dc_z_acc, gen_z_loss,
dc_x_loss, dc_x_acc, gen_x_loss`.  Reading an unbound local raises
`NameError`, embedded as `none`. -/
def train_step_return (ae dcz accZ genz dcx accX genx : ℝ) :
    Option (ℝ × ℝ × ℝ × ℝ × ℝ × ℝ × ℝ) :=
  let e := train_step_env ae dcz accZ genz dcx accX genx
  match e.ae_loss, e.dc_z_loss, e.dc_z_acc, e.gen_z_loss,
      e.dc_x_loss, e.dc_x_acc, e.gen_x_loss with
  | some a, some b, some c, some d, some f, some g, some h => some (a, b, c, d, f, g, h)
  | _, _, _, _, _, _, _ => none

/-- Claim C1 fails on the code (evaluation at the failing point): after the
body of `train_step` runs on any batch, the local `dc_x_acc` was never
bound — so the `return` of seven scalars raises `NameError` instead of
returning — and `dc_z_acc` holds the accuracy computed in the
image-discriminator sub-step, not the latent-discriminator one. -/
theorem C1_return_name_error (ae dcz accZ genz dcx accX genx : ℝ) :
    (train_step_env ae dcz accZ genz dcx accX genx).dc_x_acc = none ∧
    (train_step_env ae dcz accZ genz dcx accX genx).dc_z_acc = some accX ∧
    train_step_return ae dcz accZ genz dcx accX genx = none :=
  ⟨rfl, rfl, rfl⟩

/- ------------------------------------------------------------------ -/
/- Parameter-update frame of train_step (claim C2).                   -/

/-- The trainable parameter vectors of the four models built at source lines
136-139, each flattened to a list of reals. -/
structure ModelParams where
  encoder : List ℝ
  decoder : List ℝ
  discriminator_z : List ℝ
  discriminator_x : List ℝ

/-- `optimizer.apply_gradients(zip(grads, vars))`: each variable is replaced
by `step var grad`, where `step` abstracts one Adam update. -/
def apply_gradients (step : ℝ → ℝ → ℝ) (vars grads : List ℝ) : List ℝ :=
  List.zipWith step vars grads

/-- The five gradient lists `train_step` computes, one per `tape.gradient`
call (source lines 189, 209, 221, 240, 254). -/
structure TrainStepGrads where
  ae_grads : List ℝ
  dc_grads : List ℝ
  gen_z_grads : List ℝ
  dc_x_grads : List ℝ
  gen_x_grads : List ℝ

/-- The parameter effect of one `train_step` call (source lines 179-257),
with the autodiff engine abstracted as one gradient function per tape
(each a function of the current parameters) and the Adam update abstracted
as `step`.  Sub-step 1 (lines 182-190) computes `ae_grads` with respect to
`encoder.trainable_variables + decoder.trainable_variables` and applies the
update — line 190, the only `apply_gradients` call that is not commented
out.  Sub-steps 2-5 compute `dc_grads` (line 209), `gen_z_grads` (line 221),
`dc_x_grads` (line 240) and `gen_x_grads` (line 254) at the already-updated
parameters, but their `apply_gradients` calls (lines 210, 222, 241, 255) are
commented out.  Returns the new parameters together with every gradient the
call computed. -/
def train_step_update (step : ℝ → ℝ → ℝ)
    (gradAE gradDCz gradGENz gradDCx gradGENx : ModelParams → List ℝ)
    (p : ModelParams) : ModelParams × TrainStepGrads :=
  let ae_grads := gradAE p
  let ae_vars := apply_gradients step (p.encoder ++ p.decoder) ae_grads
  let p1 : ModelParams :=
    { p with encoder := ae_vars.take p.encoder.length,
             decoder := ae_vars.drop p.encoder.length }
  let dc_grads := gradDCz p1
  let gen_z_grads := gradGENz p1
  let dc_x_grads := gradDCx p1
  let gen_x_grads := gradGENx p1
  (p1, ⟨ae_grads, dc_grads, gen_z_grads, dc_x_grads, gen_x_grads⟩)

/-- Claim C2: a single `train_step` call leaves the parameters of the latent
discriminator and of the image discriminator unchanged — even though both
their gradients (and the two generator gradients) are computed, at the
post-autoencoder-update parameters — and it mutates the encoder and decoder
parameters exactly by the unconditionally applied autoencoder optimizer
update. -/
theorem C2_train_step_frame (step : ℝ → ℝ → ℝ)
    (gradAE gradDCz gradGENz gradDCx gradGENx : ModelParams → List ℝ)
    (p : ModelParams) :
    ((train_step_update step gradAE gradDCz gradGENz gradDCx gradGENx p).1.discriminator_z
        = p.discriminator_z) ∧
    ((train_step_update step gradAE gradDCz gradGENz gradDCx gradGENx p).1.discriminator_x
        = p.discriminator_x) ∧
    ((train_step_update step gradAE gradDCz gradGENz gradDCx gradGENx p).1.encoder
        ++ (train_step_update step gradAE gradDCz gradGENz gradDCx gradGENx p).1.decoder
        = apply_gradients step (p.encoder ++ p.decoder) (gradAE p)) ∧
    ((train_step_update step gradAE gradDCz gradGENz gradDCx gradGENx p).2
        = ⟨gradAE p,
           gradDCz (train_step_update step gradAE gradDCz gradGENz gradDCx gradGENx p).1,
           gradGENz (train_step_update step gradAE gradDCz gradGENz gradDCx gradGENx p).1,
           gradDCx (train_step_update step gradAE gradDCz gradGENz gradDCx gradGENx p).1,
           gradGENx (train_step_update step gradAE gradDCz gradGENz gradDCx gradGENx p).1⟩) := by
  refine ⟨rfl, rfl, ?_, rfl⟩
  exact List.take_append_drop _ _

/- ------------------------------------------------------------------ -/
/- The shared stateful BinaryAccuracy metric (claim C4).              -/

/-- The internal state of `tf.keras.metrics.BinaryAccuracy` (source line
150): a running total of correct predictions and a running prediction count,
accumulated over every call since the object was created.  The script
creates a single such object and never resets it. -/
structure BinaryAccuracyState where
  total : ℝ
  count : ℝ

noncomputable section

/-- The number of correct predictions in one metric update: each prediction
is thresholded at 0.5 (`y_pred > 0.5` becomes 1, else 0) and compared with
its label. -/
def binary_accuracy_matches (y_true y_pred : List ℝ) : ℝ :=
  (List.zipWith
    (fun y p => if (if (0.5 : ℝ) < p then (1 : ℝ) else 0) = y then (1 : ℝ) else 0)
    y_true y_pred).sum

/-- `update_state`: add this call's correct predictions and prediction count
to the running totals. -/
def accuracy_update (s : BinaryAccuracyState) (y_true y_pred : List ℝ) :
    BinaryAccuracyState :=
  ⟨s.total + binary_accuracy_matches y_true y_pred, s.count + (y_pred.length : ℝ)⟩

/-- `result()`: the cumulative ratio of correct predictions. -/
def accuracy_result (s : BinaryAccuracyState) : ℝ := s.total / s.count

/-- Calling the metric object, `accuracy(y_true, y_pred)`, updates the state
and returns the cumulative result. -/
def accuracy_call (s : BinaryAccuracyState) (y_true y_pred : List ℝ) :
    ℝ × BinaryAccuracyState :=
  let s' := accuracy_update s y_true y_pred
  (accuracy_result s', s')

/-- The two accuracy computations of one `train_step` call, both on the one
shared metric object: source lines 206-207 (the latent-discriminator
sub-step, on the concatenation of the real logits labeled 1 and the fake
logits labeled 0) followed by source lines 237-238 (the image-discriminator
sub-step, same construction).  Returns the value computed at line 206, the
value computed at line 237, and the metric state after the call. -/
def train_step_accs (s : BinaryAccuracyState)
    (dc_z_real dc_z_fake d_x_real d_x_fake : List ℝ) :
    ℝ × ℝ × BinaryAccuracyState :=
  let zc := accuracy_call s (onesLike dc_z_real ++ zerosLike dc_z_fake)
      (dc_z_real ++ dc_z_fake)
  let xc := accuracy_call zc.2 (onesLike d_x_real ++ zerosLike d_x_fake)
      (d_x_real ++ d_x_fake)
  (zc.1, xc.1, xc.2)

end

/-- Counterexample to claim C4 as stated: starting from the fresh metric, run
`train_step`'s two accuracy computations on a first batch (latent logits
real = [1], fake = [1]; image logits real = [1], fake = [-1]) and then on a
second batch (latent logits real = [1], fake = [-1]).  The second batch's
reported latent accuracy is the cumulative ratio 5/6, whereas the binary
accuracy over exactly that batch's concatenation is 1: the reported scalar
depends on logits seen in the earlier batch and in the earlier
image-discriminator sub-step, because the single `BinaryAccuracy` object is
never reset. -/
theorem C4_counterexample :
    (train_step_accs
        (train_step_accs ⟨0, 0⟩ [1] [1] [1] [-1]).2.2 [1] [-1] [1] [-1]).1
      ≠ (accuracy_call ⟨0, 0⟩ (onesLike [(1 : ℝ)] ++ zerosLike [(-1 : ℝ)])
          ([(1 : ℝ)] ++ [(-1 : ℝ)])).1 := by
  norm_num [train_step_accs, accuracy_call, accuracy_update, accuracy_result,
    binary_accuracy_matches, onesLike, zerosLike]

/-- Claim C4 (amended): the latent-discriminator sub-step's reported accuracy
scalar is the cumulative accuracy of the shared, never-reset metric — the
correct predictions carried in from all earlier calls (earlier batches,
earlier epochs, and earlier image-discriminator sub-steps) plus this batch's
correct predictions over the concatenation of [real labeled 1, fake labeled
0] versus [real_logits, fake_logits], divided by the cumulative prediction
count.  It coincides with the batch-local accuracy exactly when the carried
state is the fresh one. -/
theorem C4_accuracy_cumulative (s : BinaryAccuracyState) (zr zf xr xf : List ℝ) :
    (train_step_accs s zr zf xr xf).1
      = (s.total + binary_accuracy_matches (onesLike zr ++ zerosLike zf) (zr ++ zf))
        / (s.count + ((zr.length : ℝ) + (zf.length : ℝ))) ∧
    (train_step_accs ⟨0, 0⟩ zr zf xr xf).1
      = binary_accuracy_matches (onesLike zr ++ zerosLike zf) (zr ++ zf)
        / ((zr.length : ℝ) + (zf.length : ℝ)) := by
  constructor
  · simp [train_step_accs, accuracy_call, accuracy_update, accuracy_result]
  · simp [train_step_accs, accuracy_call, accuracy_update, accuracy_result]
